import Mathlib

/-!
Verification of the conversation/refund core of the music-store support agent.

The Python sources embedded here, by module:
* `src/models/types.py` — the `State` / `PurchaseInformation` typed dictionaries;
* `src/agents/agent_nodes.py` — the `AgentNodes` node functions and
  `compile_followup`;
* `src/main.py` — the `intent_classifier` node and its `compile_followup`;
* `src/core/tools.py` — `_refund` (single-connection transaction);
* `src/database/db_operations.py` — `refund`, `lookup_track`, `lookup`
  (each statement issued separately through `db_manager.execute_query`);
* `src/tools/lookup_tools.py` — the row dictionaries the catalog reply renders.

Language-model calls and gateway results are abstracted as oracle inputs:
an `Except` value stands for "the call returned this" or "the call raised".
Python strings are modelled by `String`, `None`-able values by `Option`,
dollar amounts by exact integer cents (the sources use Python floats; the
claims under verification concern which values are summed, not rounding).
-/

/-! ## Python string primitives -/

/-- Whether `pat` occurs at the start of `s` (character lists). -/
def isPrefixAt (pat s : List Char) : Bool :=
  match pat, s with
  | [], _ => true
  | _ :: _, [] => false
  | p :: ps, c :: cs => p == c && isPrefixAt ps cs

/-- Helper for `containsSub`: does `pat` occur anywhere in `s`? -/
def containsSubAux (pat : List Char) : List Char → Bool
  | [] => isPrefixAt pat []
  | c :: cs => isPrefixAt pat (c :: cs) || containsSubAux pat cs

/-- Python's `pat in s` substring test. -/
def containsSub (s pat : String) : Bool :=
  containsSubAux pat.toList s.toList

/-- ASCII lower-casing of one character (the texts involved are ASCII). -/
def lowerChar (c : Char) : Char :=
  if 65 ≤ c.toNat ∧ c.toNat ≤ 90 then Char.ofNat (c.toNat + 32) else c

/-- Python's `str.lower()` on the ASCII texts this system handles. -/
def pyLower (s : String) : String :=
  String.mk (s.toList.map lowerChar)

/-- Helper for `pyReplace`, structurally recursive on a fuel bound. -/
def replaceAllAux (pat rep : List Char) : Nat → List Char → List Char
  | _, [] => []
  | 0, s => s
  | fuel + 1, c :: cs =>
    if pat ≠ [] && isPrefixAt pat (c :: cs) then
      rep ++ replaceAllAux pat rep fuel (List.drop (pat.length - 1) cs)
    else
      c :: replaceAllAux pat rep fuel cs

/-- Python's `s.replace(pat, rep)`: every non-overlapping occurrence, left
to right. -/
def pyReplace (s pat rep : String) : String :=
  String.mk (replaceAllAux pat.toList rep.toList s.toList.length s.toList)

/-- Python's `sep.join(parts)`. -/
def joinSep (sep : String) : List String → String
  | [] => ""
  | [x] => x
  | x :: xs => x ++ sep ++ joinSep sep xs

/-- Decimal digit character. -/
def digitChar (n : Nat) : Char :=
  if n = 0 then '0' else if n = 1 then '1' else if n = 2 then '2'
  else if n = 3 then '3' else if n = 4 then '4' else if n = 5 then '5'
  else if n = 6 then '6' else if n = 7 then '7' else if n = 8 then '8' else '9'

/-- Decimal digits of `n`, most significant first (fuel-bounded recursion). -/
def natDigits : Nat → Nat → List Char
  | 0, _ => []
  | fuel + 1, n =>
    if n < 10 then [digitChar n]
    else natDigits fuel (n / 10) ++ [digitChar (n % 10)]

/-- Decimal rendering of a natural number. -/
def natToStr (n : Nat) : String :=
  String.mk (natDigits (n + 1) n)

/-- Decimal rendering of an integer. -/
def intToStr (n : Int) : String :=
  if n < 0 then "-" ++ natToStr n.natAbs else natToStr n.natAbs

/-- Dollar amounts in exact integer cents (the sources carry Python floats;
the Chinook amounts are exact cents). -/
abbrev Cents := Int

/-- Python's `f"{x:.2f}"` on a non-negative exact-cent amount. -/
def fmtMoney (c : Cents) : String :=
  let n := c.toNat
  natToStr (n / 100) ++ "." ++ (if n % 100 < 10 then "0" else "") ++ natToStr (n % 100)

/-! ## Conversation state (src/models/types.py) -/

/-- Message role: the sources build `HumanMessage` / `AIMessage` values. -/
inductive Role where
  | user
  | assistant
deriving DecidableEq, Repr

/-- One entry of the `messages` history. -/
structure Msg where
  role : Role
  content : String
deriving DecidableEq, Repr

/-- Python truthiness of an optional string (`None` and `""` are falsy). -/
def truthyStr : Option String → Bool
  | none => false
  | some s => !s.isEmpty

/-- Python truthiness of an optional integer (`None` and `0` are falsy). -/
def truthyInt : Option Int → Bool
  | none => false
  | some n => n != 0

/-- Python truthiness of an optional list (`None` and `[]` are falsy). -/
def truthyIntList : Option (List Int) → Bool
  | none => false
  | some l => !l.isEmpty

/-- Python's `parsed.get(k)` on the extraction dict: the field's value when
the key is present, `None` when it is absent. -/
def Option.pGet {a : Type} (x : Option (Option a)) : Option a :=
  x.getD none

/-- The `State` typed dictionary of src/models/types.py: message history,
the `followup` reply channel, and the nullable pending fields. All channels
besides `messages` are last-value channels. -/
structure State where
  messages : List Msg := []
  followup : Option String := none
  invoice_id : Option Int := none
  invoice_line_ids : Option (List Int) := none
  customer_first_name : Option String := none
  customer_last_name : Option String := none
  customer_phone : Option String := none
  track_name : Option String := none
  album_title : Option String := none
  artist_name : Option String := none
  purchase_date_iso_8601 : Option String := none
deriving DecidableEq, Repr

/-- The `PurchaseInformation` extraction result as a Python dict: for each
field, `none` means the key is absent from the parsed dict, `some none`
means the key is present with value `null`, and `some (some v)` means the
key is present with value `v`. (`gather_info` spreads this dict into its
returned state update, so the distinction decides whether a channel is
written at all.) -/
structure Parsed where
  invoice_id : Option (Option Int) := none
  invoice_line_ids : Option (Option (List Int)) := none
  customer_first_name : Option (Option String) := none
  customer_last_name : Option (Option String) := none
  customer_phone : Option (Option String) := none
  track_name : Option (Option String) := none
  album_title : Option (Option String) := none
  artist_name : Option (Option String) := none
  purchase_date_iso_8601 : Option (Option String) := none
  followup : Option (Option String) := none
deriving DecidableEq, Repr

/-- The state update `{**state_update, **parsed}` performed by
`AgentNodes.gather_info` (src/agents/agent_nodes.py lines 89-93), as merged
by the graph's last-value channels: every key present in the parsed dict
overwrites its channel with the parsed value — a present `null` included —
and every absent key leaves its channel untouched. (`gather_info` in
src/agents/refund_agent.py lines 60-66 does the same via
`update.update(parsed)`.) -/
def applyParsed (s : State) (p : Parsed) : State :=
  { s with
    invoice_id := p.invoice_id.getD s.invoice_id
    invoice_line_ids := p.invoice_line_ids.getD s.invoice_line_ids
    customer_first_name := p.customer_first_name.getD s.customer_first_name
    customer_last_name := p.customer_last_name.getD s.customer_last_name
    customer_phone := p.customer_phone.getD s.customer_phone
    track_name := p.track_name.getD s.track_name
    album_title := p.album_title.getD s.album_title
    artist_name := p.artist_name.getD s.artist_name
    purchase_date_iso_8601 := p.purchase_date_iso_8601.getD s.purchase_date_iso_8601
    followup := p.followup.getD s.followup }

/-- A value held by one of the nine pending fields. -/
inductive FVal where
  | int (n : Int)
  | ints (ns : List Int)
  | str (s : String)
deriving DecidableEq, Repr

/-- The nine pending fields of the conversation state. -/
inductive PField where
  | invoice_id
  | invoice_line_ids
  | customer_first_name
  | customer_last_name
  | customer_phone
  | track_name
  | album_title
  | artist_name
  | purchase_date_iso_8601
deriving DecidableEq, Repr

/-- Uniform projection of a pending field out of the state. -/
def State.pendingField (s : State) : PField → Option FVal
  | .invoice_id => s.invoice_id.map .int
  | .invoice_line_ids => s.invoice_line_ids.map .ints
  | .customer_first_name => s.customer_first_name.map .str
  | .customer_last_name => s.customer_last_name.map .str
  | .customer_phone => s.customer_phone.map .str
  | .track_name => s.track_name.map .str
  | .album_title => s.album_title.map .str
  | .artist_name => s.artist_name.map .str
  | .purchase_date_iso_8601 => s.purchase_date_iso_8601.map .str

/-- Uniform projection of a pending field out of a parsed extraction. -/
def Parsed.field (p : Parsed) : PField → Option (Option FVal)
  | .invoice_id => p.invoice_id.map (·.map .int)
  | .invoice_line_ids => p.invoice_line_ids.map (·.map .ints)
  | .customer_first_name => p.customer_first_name.map (·.map .str)
  | .customer_last_name => p.customer_last_name.map (·.map .str)
  | .customer_phone => p.customer_phone.map (·.map .str)
  | .track_name => p.track_name.map (·.map .str)
  | .album_title => p.album_title.map (·.map .str)
  | .artist_name => p.artist_name.map (·.map .str)
  | .purchase_date_iso_8601 => p.purchase_date_iso_8601.map (·.map .str)


/-! ## Agent nodes (src/agents/agent_nodes.py) -/

/-- The closed intent label set of `RouteResponse`. -/
inductive IntentLabel where
  | refund
  | music_query
  | hello
deriving DecidableEq, Repr

/-- The graph-node labels the nodes emit as their `"next"` value (`END` is
`endStep`). -/
inductive NextStep where
  | gather_info
  | process_refund
  | process_lookup
  | process_music_query
  | default_response
  | endStep
deriving DecidableEq, Repr

/-- A node's result: the updated state and the `"next"` selector. -/
structure NodeOut where
  state : State
  next : NextStep
deriving DecidableEq, Repr

/-- The arguments `process_lookup` passes to the `lookup` gateway call. -/
structure LookupArgs where
  customer_first_name : String
  customer_last_name : String
  customer_phone : String
  track_name : Option String
  album_title : Option String
  artist_name : Option String
  purchase_date_iso_8601 : Option String
deriving DecidableEq, Repr

/-- A store/gateway call issued during a turn. -/
inductive GCall where
  | refund (invoice_id : Option Int) (invoice_line_ids : Option (List Int))
  | lookup (args : LookupArgs)
  | lookup_track (artist_name : String)
  | lookup_album (artist_name : String)
  | lookup_artist (artist_name : String)
deriving DecidableEq, Repr

/-- A purchase row as `process_lookup` renders it (the key set of the
dictionaries `_lookup` in src/core/tools.py produces; the `lookup` variant
in src/database/db_operations.py omits `quantity_purchased`). -/
structure PurchaseItem where
  invoice_line_id : Int
  track_name : String
  artist_name : String
  purchase_date : String
  quantity_purchased : Int
  price_per_unit : Cents
deriving DecidableEq, Repr

/-- A track row as src/tools/lookup_tools.py `lookup_track` returns it:
keys `track_name`, `artist_name`, `album_name` — no duration. -/
structure ToolTrackRow where
  track_name : String
  artist_name : String
  album_name : String
deriving DecidableEq, Repr

/-- An album row as src/tools/lookup_tools.py `lookup_album` returns it. -/
structure ToolAlbumRow where
  album_name : String
  artist_name : String
deriving DecidableEq, Repr

/-- The column keys of the track rows the catalog reply tabulates
(`tabulate(track_results, headers="keys")` over the dictionaries built in
src/tools/lookup_tools.py `lookup_track`). -/
def toolTrackRowKeys : List String :=
  ["track_name", "artist_name", "album_name"]

/-- The cell values of one tabulated track row, in column order. -/
def ToolTrackRow.cells (r : ToolTrackRow) : List String :=
  [r.track_name, r.artist_name, r.album_name]

/-- Structural model of the third-party `tabulate(rows, headers="keys",
tablefmt="pipe")` call: the header cells, then one line of cells per row.
The claims only inspect which columns and cells appear. -/
def pipeTable (headers : List String) (rows : List (List String)) : String :=
  joinSep "\n" (joinSep " | " headers :: rows.map (joinSep " | "))

/-- The repeated terminal update of the node functions: append one
assistant message carrying the reply and set `followup` to it
(`"messages": state["messages"] + [AIMessage(content=r)], "followup": r`). -/
def withReply (s : State) (r : String) : State :=
  { s with messages := s.messages ++ [⟨.assistant, r⟩], followup := some r }

/-- A successful field-extractor response as `gather_info` consumes it: the
parsed `PurchaseInformation` dict and the assistant-facing message text it
derives from the raw response. -/
structure GatherOut where
  parsed : Parsed
  message : String
deriving DecidableEq, Repr

/-- The error reply of `gather_info`'s exception handler. -/
def errMsgGather : String :=
  "I encountered an error while processing your request. Please try again."

/-- The "Determine next step" block of `AgentNodes.gather_info`
(src/agents/agent_nodes.py lines 95-104): refund if `invoice_id` or
`invoice_line_ids` is truthy in the parsed dict, else lookup if the three
identity fields are all truthy there, else the default response. -/
def gatherNext (p : Parsed) : NextStep :=
  if truthyInt p.invoice_id.pGet || truthyIntList p.invoice_line_ids.pGet then
    NextStep.process_refund
  else if truthyStr p.customer_first_name.pGet && truthyStr p.customer_last_name.pGet &&
      truthyStr p.customer_phone.pGet then
    NextStep.process_lookup
  else
    NextStep.default_response

/-- `AgentNodes.gather_info` (src/agents/agent_nodes.py lines 52-120): on a
successful extraction, append the extractor's message, spread the parsed
dict into the state, and pick the next node from the parsed dict via
`gatherNext`. On any exception, reply with a fixed apology and end the
turn. -/
def gather_info (info : Except Unit GatherOut) (s : State) : NodeOut :=
  match info with
  | .ok g =>
    let s1 := applyParsed { s with messages := s.messages ++ [⟨.assistant, g.message⟩] } g.parsed
    ⟨s1, gatherNext g.parsed⟩
  | .error () => ⟨withReply s errMsgGather, .endStep⟩

/-- The reply of `process_refund` when no refund target is present. -/
def refundMissingText : String :=
  "I apologize, but I couldn't find the invoice ID or line items to refund. Could you please provide those details?"

/-- `AgentNodes.process_refund` (src/agents/agent_nodes.py lines 122-144):
if neither `invoice_id` nor `invoice_line_ids` is truthy, reply asking for
them without calling the gateway; otherwise call `refund` and report the
amount, or the caught exception's message. Returns the node result and the
list of gateway calls issued. -/
def process_refund (gw : Except String Cents) (s : State) : NodeOut × List GCall :=
  if !(truthyInt s.invoice_id || truthyIntList s.invoice_line_ids) then
    (⟨withReply s refundMissingText, .endStep⟩, [])
  else
    let result :=
      match gw with
      | .ok amount => "Successfully processed refund for $" ++ fmtMoney amount ++ "."
      | .error e => "An error occurred while processing your refund: " ++ e
    (⟨withReply s result, .endStep⟩, [GCall.refund s.invoice_id s.invoice_line_ids])

/-- The required identity fields `process_lookup` validates, in order. -/
def requiredFields : List String :=
  ["customer_first_name", "customer_last_name", "customer_phone"]

/-- `state.get(field)` for the three identity fields. -/
def stateGet (s : State) (k : String) : Option String :=
  if k = "customer_first_name" then s.customer_first_name
  else if k = "customer_last_name" then s.customer_last_name
  else if k = "customer_phone" then s.customer_phone
  else none

/-- The `missing_fields` list comprehension of `process_lookup`. -/
def missingFields (s : State) : List String :=
  requiredFields.filter fun f => !truthyStr (stateGet s f)

/-- The request-more-info reply of `process_lookup`: the missing field
names, `customer_` stripped, joined by commas. -/
def lookupMissingText (missing : List String) : String :=
  "I need your " ++ joinSep ", " (missing.map fun f => pyReplace f "customer_" "") ++
    " to look up your purchases. Could you please provide this information?"

/-- One rendered purchase block of the lookup reply. -/
def renderPurchase (it : PurchaseItem) : String :=
  "- Invoice Line ID: " ++ intToStr it.invoice_line_id ++
    "\n  Track: " ++ it.track_name ++
    "\n  Artist: " ++ it.artist_name ++
    "\n  Purchased: " ++ it.purchase_date ++
    "\n  Quantity: " ++ intToStr it.quantity_purchased ++
    "\n  Price: $" ++ fmtMoney it.price_per_unit

/-- `AgentNodes.process_lookup` (src/agents/agent_nodes.py lines 146-196):
if any required identity field is not truthy, reply naming the missing
fields without calling the gateway; otherwise call `lookup` with the state
filters (the code reads `state.get("purchase_date")`, a key the state never
defines, so the date filter passed is always null) and render the result,
an empty-result notice, or the caught exception's message. -/
def process_lookup (gw : Except String (List PurchaseItem)) (s : State) : NodeOut × List GCall :=
  let missing := missingFields s
  if missing.isEmpty then
    let args : LookupArgs :=
      ⟨s.customer_first_name.getD "", s.customer_last_name.getD "", s.customer_phone.getD "",
        s.track_name, s.album_title, s.artist_name, none⟩
    let response :=
      match gw with
      | .ok [] => "I couldn't find any purchases matching those details. Please check the information and try again."
      | .ok items =>
        "Here are your purchases:\n\n" ++ joinSep "\n\n" (items.map renderPurchase) ++
          "\n\nTo get a refund, please let me know which Invoice Line ID(s) you would like refunded."
      | .error e => "An error occurred while looking up your purchases: " ++ e
    (⟨withReply s response, .endStep⟩, [GCall.lookup args])
  else
    (⟨withReply s (lookupMissingText missing), .endStep⟩, [])

/-- The error reply of `process_music_query`'s exception handler. -/
def errMsgMusic : String :=
  "I encountered an error while searching our music catalog. Please try again."

/-- The empty-result reply of `process_music_query`. -/
def musicEmptyText : String :=
  "I couldn't find any music matching your query. Could you try being more specific or try another artist/song name?"

/-- The formatted catalog reply for non-empty results: the `response_parts`
assembly of src/agents/agent_nodes.py lines 242-259. -/
def musicReply (tracks : List ToolTrackRow) (albums : List ToolAlbumRow) : String :=
  let trackParts : List String :=
    if tracks.isEmpty then []
    else ["Here are the tracks we have:\n", pipeTable toolTrackRowKeys (tracks.map ToolTrackRow.cells)]
  let albumParts : List String :=
    if albums.isEmpty then []
    else
      (if trackParts.isEmpty then [] else ["\n\n"]) ++
        ["Albums by this artist:\n", pipeTable ["album_name", "artist_name"] (albums.map fun a => [a.album_name, a.artist_name])]
  joinSep "\n" (trackParts ++ albumParts)

/-- `AgentNodes.process_music_query` (src/agents/agent_nodes.py lines
231-274): reads the last message's text and calls `lookup_track` and then
`lookup_album`, passing the whole text as the `artist_name` argument of
both; any exception (including the indexing of an empty history) is caught
and answered with a fixed apology. Returns the node result and the gateway
calls issued up to the point the branch ends. -/
def process_music_query (trackGw : Except Unit (List ToolTrackRow))
    (albumGw : Except Unit (List ToolAlbumRow)) (s : State) : NodeOut × List GCall :=
  match s.messages.getLast? with
  | none => (⟨withReply s errMsgMusic, .endStep⟩, [])
  | some m =>
    match trackGw with
    | .error () => (⟨withReply s errMsgMusic, .endStep⟩, [GCall.lookup_track m.content])
    | .ok tracks =>
      match albumGw with
      | .error () =>
        (⟨withReply s errMsgMusic, .endStep⟩, [GCall.lookup_track m.content, GCall.lookup_album m.content])
      | .ok albums =>
        let response :=
          if tracks.isEmpty && albums.isEmpty then musicEmptyText
          else musicReply tracks albums
        (⟨withReply s response, .endStep⟩, [GCall.lookup_track m.content, GCall.lookup_album m.content])

/-- The capability summary `default_response` gives when the lowered last
message contains both "information" and "music". -/
def defaultMusicInfoText : String :=
  "I can help you with information about our music catalog. You can:\n" ++
    "1. Look up songs by artist name\n" ++
    "2. Find albums by title\n" ++
    "3. Search for specific tracks\n" ++
    "4. Check purchase history (if you provide your information)\n" ++
    "\nWhat specific information would you like to know?"

/-- The greeting `default_response` gives when the lowered last message
contains "hello", "hi" or "hey". -/
def defaultGreetingText : String :=
  "Hello! I'm your music store assistant. I can help you with:\n" ++
    "1. Looking up music in our catalog\n" ++
    "2. Processing refunds for purchases\n" ++
    "3. Finding specific songs, albums, or artists\n" ++
    "\nHow can I assist you today?"

/-- The generic capability summary `default_response` gives otherwise. -/
def defaultFallbackText : String :=
  "I can help you with looking up music in our catalog or processing refunds for your purchases. What would you like to do?\n" ++
    "            \n" ++
    "- For music lookup, just ask about any artist, album, or song\n" ++
    "- For refunds, please provide your name, phone number, or invoice details"

/-- The three fixed texts of the default/fallback node. -/
def defaultTexts : List String :=
  [defaultMusicInfoText, defaultGreetingText, defaultFallbackText]

/-- The reply `default_response` selects from the lowered last message
(src/agents/agent_nodes.py lines 276-311). -/
def defaultResponseText (s : State) : String :=
  let message :=
    match s.messages.getLast? with
    | some m => pyLower m.content
    | none => ""
  if containsSub message "information" && containsSub message "music" then defaultMusicInfoText
  else if containsSub message "hello" || containsSub message "hi" || containsSub message "hey" then
    defaultGreetingText
  else defaultFallbackText

/-- `AgentNodes.default_response`: a fixed capability-summary reply chosen
by keyword matching on the last message; terminal. -/
def default_response (s : State) : NodeOut :=
  ⟨withReply s (defaultResponseText s), .endStep⟩

/-- `AgentNodes.route_request` (src/agents/agent_nodes.py lines 198-229):
route on the classifier's structured response — `refund` to the gathering
node, `music_query` to the catalog node, anything else (including a
response without a valid intent) to the default response; any exception is
caught and also routed to the default response. The state is unchanged. -/
def route_request (resp : Except Unit (Option IntentLabel)) (s : State) : NodeOut :=
  match resp with
  | .ok (some .refund) => ⟨s, .gather_info⟩
  | .ok (some .music_query) => ⟨s, .process_music_query⟩
  | .ok _ => ⟨s, .default_response⟩
  | .error () => ⟨s, .default_response⟩

/-- `compile_followup` (src/agents/agent_nodes.py lines 313-317): when
`followup` is falsy, set it to the last message's content — indexing that
raises on an empty history, modelled as `none`. -/
def compile_followup (s : State) : Option State :=
  if truthyStr s.followup then some s
  else
    match s.messages.getLast? with
    | some m => some { s with followup := some m.content }
    | none => none

/-- The oracle inputs one turn can consume: the router and extractor model
calls and the gateway results, each an `Except` ("returned" or "raised"). -/
structure TurnOracle where
  route : Except Unit (Option IntentLabel)
  gather : Except Unit GatherOut
  refundGw : Except String Cents
  lookupGw : Except String (List PurchaseItem)
  trackGw : Except Unit (List ToolTrackRow)
  albumGw : Except Unit (List ToolAlbumRow)

/-- One full turn of the AgentNodes graph: route, then the selected branch,
then `compile_followup`. The node set and each node's `"next"` labels are
from src/agents/agent_nodes.py; the edge wiring that consumes those labels
(the graph builder `build_graph` that src/app.py and src/evaluation.py
import) is not present under src/, so the composition follows the nodes'
own `"next"` values and the spec's transition table. Returns the final
state (`none` when the turn would raise) and the gateway calls issued. -/
def runTurn (o : TurnOracle) (s : State) : Option State × List GCall :=
  let r := route_request o.route s
  let (t, calls) :=
    match r.next with
    | .gather_info =>
      let g := gather_info o.gather r.state
      match g.next with
      | .process_refund => process_refund o.refundGw g.state
      | .process_lookup => process_lookup o.lookupGw g.state
      | .default_response => (default_response g.state, [])
      | _ => (g, [])
    | .process_music_query => process_music_query o.trackGw o.albumGw r.state
    | .default_response => (default_response r.state, [])
    | _ => (r, [])
  (compile_followup t.state, calls)

/-- Does the history end with an assistant entry? -/
def endsWithAssistant (ms : List Msg) : Bool :=
  match ms.getLast? with
  | some m => m.role == .assistant
  | none => false

/-! ## The main.py variant (src/main.py) -/

/-- The `UserIntent` label set of the two-way classifier. -/
inductive MainIntent where
  | refund
  | question_answering
deriving DecidableEq, Repr

/-- Where `intent_classifier` sends the turn. -/
inductive MainGoto where
  | refund_agent
  | qa_agent
  | endStep
deriving DecidableEq, Repr

/-- The fixed fallback reply of `intent_classifier`'s exception handler. -/
def classifierFallbackText : String :=
  "I'm sorry, I couldn't understand that. Could you rephrase?"

/-- The `Command` value `intent_classifier` returns. -/
structure MainCommand where
  messages : List Msg
  followup : Option String
  goto : MainGoto
deriving DecidableEq, Repr

/-- `intent_classifier` (src/main.py lines 84-110): on success route
`refund` to the refund agent and everything else (`response.get("intent",
"question_answering")`) to the QA agent; on any exception append the fixed
fallback reply, set `followup` to it, and end the turn. -/
def intent_classifier (resp : Except Unit (Option MainIntent)) (messages : List Msg) : MainCommand :=
  match resp with
  | .ok r =>
    let intent := r.getD .question_answering
    ⟨messages, none, if intent = .refund then .refund_agent else .qa_agent⟩
  | .error () =>
    ⟨messages ++ [⟨.assistant, classifierFallbackText⟩], some classifierFallbackText, .endStep⟩

/-- `compile_followup` (src/main.py lines 113-124): set `followup` to the
last message's content when unset, or to a fixed apology when the history
is empty; total, unlike the agent_nodes variant. -/
def mainCompileFollowup (s : State) : State :=
  if truthyStr s.followup then s
  else
    match s.messages.getLast? with
    | some m => { s with followup := some m.content }
    | none => { s with followup := some "I apologize, something went wrong." }

/-! ## The Chinook record store -/

/-- A `Customer` row (the columns the queries touch). -/
structure Customer where
  customerId : Int
  firstName : String
  lastName : String
  phone : String
deriving DecidableEq, Repr

/-- An `Invoice` row. `invoiceDate` is a numeric timestamp ordered
chronologically (sqlite compares the stored ISO strings lexicographically,
which is the same order). -/
structure Invoice where
  invoiceId : Int
  customerId : Int
  invoiceDate : Nat
  total : Cents
deriving DecidableEq, Repr

/-- An `InvoiceLine` row. -/
structure InvoiceLine where
  invoiceLineId : Int
  invoiceId : Int
  trackId : Int
  unitPrice : Cents
  quantity : Int
deriving DecidableEq, Repr

/-- A `Track` row. -/
structure Track where
  trackId : Int
  albumId : Int
  name : String
  milliseconds : Nat
deriving DecidableEq, Repr

/-- An `Album` row. -/
structure Album where
  albumId : Int
  artistId : Int
  title : String
deriving DecidableEq, Repr

/-- An `Artist` row. -/
structure Artist where
  artistId : Int
  name : String
deriving DecidableEq, Repr

/-- The relational store the gateway queries and deletes against. -/
structure ChinookDb where
  customers : List Customer := []
  invoices : List Invoice := []
  invoiceLines : List InvoiceLine := []
  tracks : List Track := []
  albums : List Album := []
  artists : List Artist := []
deriving DecidableEq, Repr

/-- `SUM(UnitPrice * Quantity)` over a list of invoice lines. -/
def sumLines (ls : List InvoiceLine) : Cents :=
  ls.foldl (fun acc l => acc + l.unitPrice * l.quantity) 0

/-- `LIKE '%pat%'` with `LOWER` on both sides (sqlite's `LIKE` is
case-insensitive on ASCII even without `LOWER`). -/
def likeContains (field pat : String) : Bool :=
  containsSub (pyLower field) (pyLower pat)

/-! ## Refund statements (src/core/tools.py and src/database/db_operations.py) -/

/-- The SQL statements the two refund implementations issue, in their
shared shapes. -/
inductive Stmt where
  | selectInvoiceTotal (invId : Int)
  | deleteLinesByInvoice (invId : Int)
  | deleteInvoice (invId : Int)
  | selectLinesSum (ids : List Int)
  | deleteLinesByIds (ids : List Int)
deriving DecidableEq, Repr

/-- The effect of one statement on the view it executes against. -/
def Stmt.effect : Stmt → ChinookDb → ChinookDb
  | .selectInvoiceTotal _, db => db
  | .deleteLinesByInvoice invId, db =>
    { db with invoiceLines := db.invoiceLines.filter fun l => l.invoiceId != invId }
  | .deleteInvoice invId, db =>
    { db with invoices := db.invoices.filter fun r => r.invoiceId != invId }
  | .selectLinesSum _, db => db
  | .deleteLinesByIds ids, db =>
    { db with invoiceLines := db.invoiceLines.filter fun l => !ids.contains l.invoiceLineId }

/-- The amount the refund code adds to `total_refund` after one statement,
read from the view the statement executes against. A missing invoice
contributes nothing (`if result:`), and a null/zero sum is skipped
(`if result and result[0][0]:`), which adds the same total. -/
def Stmt.value : Stmt → ChinookDb → Cents
  | .selectInvoiceTotal invId, db =>
    ((db.invoices.find? fun r => r.invoiceId = invId).map Invoice.total).getD 0
  | .selectLinesSum ids, db =>
    sumLines (db.invoiceLines.filter fun l => ids.contains l.invoiceLineId)
  | _, _ => 0

/-- The statement sequence `_refund` (src/core/tools.py lines 31-92)
issues: the invoice branch (`invoice_id is not None`) reads the invoice
total and, unless mocking, deletes the invoice's lines and then the
invoice; the line branch (`invoice_line_ids is not None`) reads the named
lines' sum and, unless mocking, deletes them. -/
def refundStmts (inv : Option Int) (lineIds : Option (List Int)) (mock : Bool) : List Stmt :=
  (match inv with
   | some invId =>
     [Stmt.selectInvoiceTotal invId] ++
       (if mock then [] else [Stmt.deleteLinesByInvoice invId, Stmt.deleteInvoice invId])
   | none => []) ++
  (match lineIds with
   | some ids =>
     [Stmt.selectLinesSum ids] ++ (if mock then [] else [Stmt.deleteLinesByIds ids])
   | none => [])

/-- Runs a statement list against a transaction's pending view, numbering
statements from `i` and accumulating the refund total; statement `j` raises
when `faults j` is set, aborting the run. -/
def runStmts (faults : Nat → Bool) : List Stmt → Nat → ChinookDb → Cents → Except Unit (ChinookDb × Cents)
  | [], _, pending, total => .ok (pending, total)
  | stmt :: rest, i, pending, total =>
    if faults i then .error ()
    else runStmts faults rest (i + 1) (stmt.effect pending) (total + stmt.value pending)

/-- `_refund` (src/core/tools.py lines 10-106): one connection, one
transaction. Both branches run on the same cursor, so the line-sum SELECT
sees the invoice branch's uncommitted deletions; `conn.commit()` (numbered
after the last statement, and also able to raise) publishes the pending
view; on `sqlite3.Error` the handler calls `conn.rollback()` and re-raises.
An empty `invoice_line_ids` list builds `IN ()`, a sqlite syntax error, so
that run also raises. The result is the committed store paired with the
returned amount or the raised error. -/
def _refund (db : ChinookDb) (inv : Option Int) (lineIds : Option (List Int))
    (mock : Bool) (faults : Nat → Bool) : ChinookDb × Except Unit Cents :=
  if inv = none ∧ lineIds = none then (db, .ok 0)
  else if lineIds = some [] then (db, .error ())
  else
    let stmts := refundStmts inv lineIds mock
    match runStmts faults stmts 0 db 0 with
    | .ok (pending, total) =>
      if faults stmts.length then (db, .error ()) else (pending, .ok total)
    | .error () => (db, .error ())

/-- The statement sequence `refund` (src/database/db_operations.py lines
6-63) issues. It differs from `_refund`'s in the line branch's guard:
`if invoice_line_ids:` skips an empty list instead of raising. -/
def dbOpsStmts (inv : Option Int) (lineIds : Option (List Int)) (mock : Bool) : List Stmt :=
  (match inv with
   | some invId =>
     [Stmt.selectInvoiceTotal invId] ++
       (if mock then [] else [Stmt.deleteLinesByInvoice invId, Stmt.deleteInvoice invId])
   | none => []) ++
  (match lineIds with
   | some ids =>
     if ids.isEmpty then []
     else [Stmt.selectLinesSum ids] ++ (if mock then [] else [Stmt.deleteLinesByIds ids])
   | none => [])

/-- Helper for `DbOperations.refund`: run the statements on the pooled
connection's view; a fault stops the run and re-raises with everything
executed so far still applied to that view (the source's handler is
`except Exception as e: raise e`, with no rollback and no commit anywhere
on this path). -/
def runPooled (faults : Nat → Bool) : List Stmt → Nat → ChinookDb → Cents → ChinookDb × Except Unit Cents
  | [], _, pending, total => (pending, .ok total)
  | stmt :: rest, i, pending, total =>
    if faults i then (pending, .error ())
    else runPooled faults rest (i + 1) (stmt.effect pending) (total + stmt.value pending)

namespace DbOperations

/-- `refund` (src/database/db_operations.py lines 6-63): each statement
goes through `DatabaseManager.execute_query`, which pops a pooled
connection, executes the one statement, and returns the connection — no
BEGIN, COMMIT or ROLLBACK anywhere. Run sequentially, the pool hands back
the same connection each time, so each statement sees the previous ones'
effects, and a failure leaves the already-executed deletions in place on
that shared connection. The result pairs that connection's observable view
with the returned amount or the raised error. -/
def refund (db : ChinookDb) (inv : Option Int) (lineIds : Option (List Int))
    (mock : Bool) (faults : Nat → Bool) : ChinookDb × Except Unit Cents :=
  if inv = none ∧ lineIds = none then (db, .ok 0)
  else runPooled faults (dbOpsStmts inv lineIds mock) 0 db 0

end DbOperations

/-! ## Catalog and purchase lookups (src/database/db_operations.py) -/

/-- A row of `lookup_track` in src/database/db_operations.py: the
`duration` column carries `Track.Milliseconds` unconverted. -/
structure DbTrackRow where
  track_name : String
  artist_name : String
  album_title : String
  duration : Nat
deriving DecidableEq, Repr

namespace DbOperations

/-- `lookup_track` (src/database/db_operations.py lines 65-94):
`SELECT DISTINCT Track.Name, Artist.Name, Album.Title, Track.Milliseconds`
over the track-album-artist join, filtered by
`LOWER(Track.Name) LIKE LOWER('%query%')`. `DISTINCT` is modelled by
`dedup`. -/
def lookup_track (query : String) (db : ChinookDb) : List DbTrackRow :=
  let joined := db.tracks.flatMap fun t =>
    (db.albums.filter fun al => al.albumId == t.albumId).flatMap fun al =>
      (db.artists.filter fun ar => ar.artistId == al.artistId).map fun ar =>
        (t, al, ar)
  let filtered := joined.filter fun x => likeContains x.1.name query
  (filtered.map fun x => DbTrackRow.mk x.1.name x.2.2.name x.2.1.title x.1.milliseconds).dedup

end DbOperations

/-- The filter arguments of `lookup` in src/database/db_operations.py. The
date filter is a day number: the query compares `DATE()` of both sides. -/
structure LookupFilters where
  customer_first_name : Option String := none
  customer_last_name : Option String := none
  customer_phone : Option String := none
  track_name : Option String := none
  album_title : Option String := none
  artist_name : Option String := none
  purchase_date : Option Nat := none
deriving DecidableEq, Repr

/-- One row of the six-table join `Customer ⋈ Invoice ⋈ InvoiceLine ⋈
Track ⋈ Album ⋈ Artist`. -/
structure JoinedPurchase where
  customer : Customer
  invoice : Invoice
  line : InvoiceLine
  track : Track
  album : Album
  artist : Artist
deriving DecidableEq, Repr

/-- The join of `lookup`'s FROM/JOIN clauses. -/
def joinPurchases (db : ChinookDb) : List JoinedPurchase :=
  db.customers.flatMap fun c =>
    (db.invoices.filter fun i => i.customerId == c.customerId).flatMap fun i =>
      (db.invoiceLines.filter fun il => il.invoiceId == i.invoiceId).flatMap fun il =>
        (db.tracks.filter fun t => t.trackId == il.trackId).flatMap fun t =>
          (db.albums.filter fun al => al.albumId == t.albumId).flatMap fun al =>
            (db.artists.filter fun ar => ar.artistId == al.artistId).map fun ar =>
              JoinedPurchase.mk c i il t al ar

/-- The day part `DATE()` extracts from a timestamp. -/
def dateOnly (ts : Nat) : Nat := ts / 86400

/-- The WHERE clause `lookup` builds: one condition per truthy filter,
all ANDed (an absent or falsy filter adds no condition). -/
def matchesFilters (f : LookupFilters) (j : JoinedPurchase) : Bool :=
  (match f.customer_first_name with
   | some s => !s.isEmpty → likeContains j.customer.firstName s
   | none => true) &&
  (match f.customer_last_name with
   | some s => !s.isEmpty → likeContains j.customer.lastName s
   | none => true) &&
  (match f.customer_phone with
   | some s => !s.isEmpty → likeContains j.customer.phone s
   | none => true) &&
  (match f.track_name with
   | some s => !s.isEmpty → likeContains j.track.name s
   | none => true) &&
  (match f.album_title with
   | some s => !s.isEmpty → likeContains j.album.title s
   | none => true) &&
  (match f.artist_name with
   | some s => !s.isEmpty → likeContains j.artist.name s
   | none => true) &&
  (match f.purchase_date with
   | some d => dateOnly j.invoice.invoiceDate == d
   | none => true)

/-- The projection of `lookup`'s SELECT list. -/
structure LookupRow where
  invoice_line_id : Int
  track_name : String
  artist_name : String
  purchase_date : Nat
  price_per_unit : Cents
deriving DecidableEq, Repr

/-- The SELECT list of `lookup`. -/
def projectPurchase (j : JoinedPurchase) : LookupRow :=
  ⟨j.line.invoiceLineId, j.track.name, j.artist.name, j.invoice.invoiceDate, j.line.unitPrice⟩

namespace DbOperations

/-- `lookup` (src/database/db_operations.py lines 151-221): join, filter by
the provided criteria, project `DISTINCT`, and `ORDER BY Invoice.InvoiceDate
DESC` (modelled by a merge sort under the date-descending order). -/
def lookup (f : LookupFilters) (db : ChinookDb) : List LookupRow :=
  ((((joinPurchases db).filter (matchesFilters f)).map projectPurchase).dedup).mergeSort
    fun a b => decide (b.purchase_date ≤ a.purchase_date)

end DbOperations

/-- The minutes:seconds rendering the spec asserts for track durations
(minutes by integer division by 60000, seconds by the remainder modulo
60000 divided by 1000, zero-padded to two digits). No function of the
sources computes this; it is stated here to compare against them. -/
def specMinSec (ms : Nat) : String :=
  let secs := ms % 60000 / 1000
  natToStr (ms / 60000) ++ ":" ++ (if secs < 10 then "0" else "") ++ natToStr secs

/-- The reply property claim C3 asserts of the information-gathering
fallback: the reply enumerates exactly the missing identity fields — each
missing field's short name occurs in it and no present field's does. -/
def enumeratesMissing (reply : String) (s : State) : Bool :=
  requiredFields.all fun f =>
    let short := pyReplace f "customer_" ""
    if f ∈ missingFields s then containsSub reply short else !containsSub reply short

/-- The store with every deletion of a refund target applied, in the order
the refund code deletes: the given invoice's lines and the invoice itself,
then the named lines. -/
def refundedStore (db : ChinookDb) (inv : Option Int) (lineIds : Option (List Int)) : ChinookDb :=
  let afterInv :=
    match inv with
    | some i =>
      { db with
        invoices := db.invoices.filter fun r => r.invoiceId != i
        invoiceLines := db.invoiceLines.filter fun l => l.invoiceId != i }
    | none => db
  match lineIds with
  | some ids =>
    { afterInv with
      invoiceLines := afterInv.invoiceLines.filter fun l => !ids.contains l.invoiceLineId }
  | none => afterInv

/-- The invoice-branch contribution to a refund: the stored total of the
invoice, zero when no such invoice exists. -/
def invoiceTotal (db : ChinookDb) (invId : Int) : Cents :=
  ((db.invoices.find? fun r => r.invoiceId = invId).map Invoice.total).getD 0

/-! ## Concrete fixtures used by witnesses and counterexamples -/

/-- A store holding one invoice (id 1, total 9.99) whose single line (id
10) costs 9.99. -/
def refundDb1 : ChinookDb :=
  { invoices := [⟨1, 1, 0, 999⟩], invoiceLines := [⟨10, 1, 1, 999, 1⟩] }

/-- A store holding invoice 1 (total 9.99, line 10 at 9.99) and invoice 2
(total 5.00, line 20 at 2.50 times two). -/
def refundDb2 : ChinookDb :=
  { invoices := [⟨1, 1, 0, 999⟩, ⟨2, 1, 0, 500⟩],
    invoiceLines := [⟨10, 1, 1, 999, 1⟩, ⟨20, 2, 1, 250, 2⟩] }

/-- An extraction output reporting a last name and phone, the first name
absent. -/
def parsedNoFirst : Parsed :=
  { customer_last_name := some (some "Doe"), customer_phone := some (some "555-1234") }

/-- An extraction output reporting an invoice id. -/
def parsedInvoice : Parsed :=
  { invoice_id := some (some 7) }

/-- An extraction output reporting `invoice_id: null` explicitly. -/
def parsedNullInvoice : Parsed :=
  { invoice_id := some none }

/-- A state whose history is one refund-seeking user message. -/
def stateRefundMsg : State :=
  { messages := [⟨.user, "I want a refund on my order"⟩] }

/-- The classifier failure modes claim C8 quantifies over: the call raised
(any exception, a timeout included), or it returned output without a
usable intent label. -/
inductive ClassifierFailure where
  | raised
  | malformed
deriving DecidableEq, Repr

/-- The route oracle value each classifier failure produces. -/
def ClassifierFailure.outcome : ClassifierFailure → Except Unit (Option IntentLabel)
  | .raised => .error ()
  | .malformed => .ok none

/-- A catalog with one track of 125000 milliseconds. -/
def catalogDb : ChinookDb :=
  { tracks := [⟨1, 1, "Some Song", 125000⟩], albums := [⟨1, 1, "Some Album"⟩],
    artists := [⟨1, "Some Artist"⟩] }

/-! ## Claims -/

/-- C1 (amended): the merge of an extraction into the conversation state
preserves a pending field exactly when the extraction omits that field
from its output; a field the extraction reports — with null included — is
overwritten, so the merge is last-write-wins per present key, not
non-null-wins. -/
theorem gather_merge_preserves_omitted_fields (s : State) (g : GatherOut) (f : PField)
    (h : g.parsed.field f = none) :
    ((gather_info (.ok g) s).state).pendingField f = s.pendingField f := by
  cases f <;>
    simp only [Parsed.field, Option.map_eq_none'] at h <;>
    simp [gather_info, applyParsed, State.pendingField, h]

/-- Witness: a concrete extraction omitting `invoice_id` leaves a prior
`invoice_id = 7` intact. -/
theorem gather_merge_preserves_omitted_fields_witness :
    ((gather_info (.ok ⟨{}, "ok"⟩) { invoice_id := some 7 }).state).pendingField .invoice_id =
      State.pendingField { invoice_id := some 7 } .invoice_id :=
  gather_merge_preserves_omitted_fields { invoice_id := some 7 } ⟨{}, "ok"⟩ .invoice_id (by decide)

/-- C1 counterexample: after a turn set `invoice_id` to 7, a later
extraction reporting `invoice_id: null` nulls the field out instead of
leaving the prior value intact. -/
theorem gather_merge_nulls_out_cex :
    (gather_info (.ok ⟨{ invoice_id := some none }, "msg"⟩) { invoice_id := some 7 }).state.invoice_id = none ∧
      ({ invoice_id := some 7 } : State).invoice_id = some 7 := by
  exact ⟨by decide, by decide⟩

/-- Helper: the default-response reply is always one of the three fixed
capability-summary texts. -/
theorem defaultResponseText_mem (s : State) : defaultResponseText s ∈ defaultTexts := by
  simp only [defaultResponseText, defaultTexts]
  split
  · simp
  · split <;> simp


/-- C3 (amended): the gather-info step selects the next node by the claimed
priority — refund execution when `invoice_id` or `invoice_line_ids` is
truthy in the extractor output, else lookup execution when all three
identity fields are truthy — but otherwise it hands the turn to the
default-response node, whose reply is one of three fixed capability
summaries chosen from the user's message, not an enumeration of the
missing identity fields. -/
theorem gather_decision_priority (g : GatherOut) (s : State) :
    ((truthyInt g.parsed.invoice_id.pGet || truthyIntList g.parsed.invoice_line_ids.pGet) →
      (gather_info (.ok g) s).next = .process_refund) ∧
    (!(truthyInt g.parsed.invoice_id.pGet || truthyIntList g.parsed.invoice_line_ids.pGet) →
      (truthyStr g.parsed.customer_first_name.pGet && truthyStr g.parsed.customer_last_name.pGet &&
        truthyStr g.parsed.customer_phone.pGet) →
      (gather_info (.ok g) s).next = .process_lookup) ∧
    (!(truthyInt g.parsed.invoice_id.pGet || truthyIntList g.parsed.invoice_line_ids.pGet) →
      !(truthyStr g.parsed.customer_first_name.pGet && truthyStr g.parsed.customer_last_name.pGet &&
        truthyStr g.parsed.customer_phone.pGet) →
      (gather_info (.ok g) s).next = .default_response ∧
        (default_response (gather_info (.ok g) s).state).state.followup =
          some (defaultResponseText (gather_info (.ok g) s).state) ∧
        defaultResponseText (gather_info (.ok g) s).state ∈ defaultTexts) := by
  have hn : (gather_info (.ok g) s).next = gatherNext g.parsed := rfl
  refine ⟨fun h1 => ?_, fun h1 h2 => ?_, fun h1 h2 => ?_⟩
  · rw [hn]; unfold gatherNext
    rw [if_pos h1]
  · simp only [Bool.not_eq_true'] at h1
    rw [hn]; unfold gatherNext
    rw [if_neg (by rw [h1]; simp), if_pos h2]
  · simp only [Bool.not_eq_true'] at h1 h2
    refine ⟨?_, rfl, defaultResponseText_mem _⟩
    rw [hn]; unfold gatherNext
    rw [if_neg (by rw [h1]; simp), if_neg (by rw [h2]; simp)]

/-- Witness: an extraction carrying only a last name and phone falls
through to the default response; one carrying an invoice id goes to refund
execution. -/
theorem gather_decision_priority_witness :
    (gather_info (.ok ⟨parsedNoFirst, "m"⟩) stateRefundMsg).next = .default_response ∧
    (gather_info (.ok ⟨parsedInvoice, "m"⟩) stateRefundMsg).next = .process_refund := by
  constructor
  · exact ((gather_decision_priority ⟨parsedNoFirst, "m"⟩ stateRefundMsg).2.2
      (by decide) (by decide)).1
  · exact (gather_decision_priority ⟨parsedInvoice, "m"⟩ stateRefundMsg).1 (by decide)

set_option maxRecDepth 100000 in
/-- C3 counterexample: with exactly the first name missing, the turn ends
in the default-response node and the reply is the fixed generic capability
summary, which does not name the missing `first_name` (and names the
present phone), so no branch replies with an enumeration of exactly the
missing identity fields. -/
theorem gather_fallback_not_enumerating_cex :
    (gather_info (.ok ⟨parsedNoFirst, "m"⟩) stateRefundMsg).next = .default_response ∧
    missingFields (gather_info (.ok ⟨parsedNoFirst, "m"⟩) stateRefundMsg).state =
      ["customer_first_name"] ∧
    (default_response (gather_info (.ok ⟨parsedNoFirst, "m"⟩) stateRefundMsg).state).state.followup =
      some defaultFallbackText ∧
    enumeratesMissing defaultFallbackText
      (gather_info (.ok ⟨parsedNoFirst, "m"⟩) stateRefundMsg).state = false := by
  exact ⟨by decide, by decide, by decide, by decide⟩

/-- Helper: `compile_followup` leaves a terminal node's output unchanged
(the reply is already in `followup`, and when it is the empty string the
recompute from the last message yields the same value). -/
theorem compile_followup_withReply (s : State) (r : String) :
    compile_followup (withReply s r) = some (withReply s r) := by
  by_cases hr : r.isEmpty
  · cases s with
    | mk ms fu a b c d e f g h i =>
      simp [compile_followup, withReply, truthyStr, hr]
  · simp [compile_followup, withReply, truthyStr, hr]

/-- Helper: a terminal node's history ends with the assistant reply. -/
theorem ends_withReply (s : State) (r : String) :
    endsWithAssistant (withReply s r).messages = true := by
  simp [endsWithAssistant, withReply]

/-- Helper: `process_refund` always produces a terminal reply state. -/
theorem process_refund_shape (gw : Except String Cents) (s : State) :
    ∃ r calls, process_refund gw s = (⟨withReply s r, .endStep⟩, calls) := by
  unfold process_refund
  split
  · exact ⟨_, _, rfl⟩
  · exact ⟨_, _, rfl⟩

/-- Helper: `process_lookup` always produces a terminal reply state. -/
theorem process_lookup_shape (gw : Except String (List PurchaseItem)) (s : State) :
    ∃ r calls, process_lookup gw s = (⟨withReply s r, .endStep⟩, calls) := by
  unfold process_lookup
  by_cases hm : (missingFields s).isEmpty = true
  · rw [if_pos hm]
    exact ⟨_, _, rfl⟩
  · rw [if_neg hm]
    exact ⟨_, _, rfl⟩

/-- Helper: `process_music_query` always produces a terminal reply state. -/
theorem process_music_shape (tg : Except Unit (List ToolTrackRow))
    (ag : Except Unit (List ToolAlbumRow)) (s : State) :
    ∃ r calls, process_music_query tg ag s = (⟨withReply s r, .endStep⟩, calls) := by
  unfold process_music_query
  cases s.messages.getLast? with
  | none => exact ⟨_, _, rfl⟩
  | some m =>
    cases tg with
    | error e => exact ⟨_, _, rfl⟩
    | ok tracks =>
      cases ag with
      | error e => exact ⟨_, _, rfl⟩
      | ok albums => exact ⟨_, _, rfl⟩

/-- Helper: the gather-info decision selects only the three downstream
nodes. -/
theorem gatherNext_cases (p : Parsed) :
    gatherNext p = .process_refund ∨ gatherNext p = .process_lookup ∨
      gatherNext p = .default_response := by
  unfold gatherNext
  split
  · exact Or.inl rfl
  · split
    · exact Or.inr (Or.inl rfl)
    · exact Or.inr (Or.inr rfl)

/-- C2: after any completed turn — whatever branch it takes and whether
its calls succeed or raise — the turn finishes normally, the last reply
(`followup`) is non-null, and the history ends with an assistant entry;
and the main.py `compile_followup` yields a non-null followup from every
state. -/
theorem turn_reply_invariant (o : TurnOracle) (s : State) :
    (∃ t, (runTurn o s).1 = some t ∧ t.followup ≠ none ∧ endsWithAssistant t.messages = true) ∧
    (∀ u : State, (mainCompileFollowup u).followup ≠ none) := by
  constructor
  · rcases o with ⟨route, gather, refundGw, lookupGw, trackGw, albumGw⟩
    cases route with
    | error e =>
      exact ⟨withReply s (defaultResponseText s),
        by simp [runTurn, route_request, default_response, compile_followup_withReply],
        by simp [withReply], ends_withReply _ _⟩
    | ok io =>
      cases io with
      | none =>
        exact ⟨withReply s (defaultResponseText s),
          by simp [runTurn, route_request, default_response, compile_followup_withReply],
          by simp [withReply], ends_withReply _ _⟩
      | some i =>
        cases i with
        | hello =>
          exact ⟨withReply s (defaultResponseText s),
            by simp [runTurn, route_request, default_response, compile_followup_withReply],
            by simp [withReply], ends_withReply _ _⟩
        | music_query =>
          obtain ⟨r, cs, hshape⟩ := process_music_shape trackGw albumGw s
          exact ⟨withReply s r,
            by simp [runTurn, route_request, hshape, compile_followup_withReply],
            by simp [withReply], ends_withReply _ _⟩
        | refund =>
          cases gather with
          | error e =>
            exact ⟨withReply s errMsgGather,
              by simp [runTurn, route_request, gather_info, compile_followup_withReply],
              by simp [withReply], ends_withReply _ _⟩
          | ok g =>
            rcases gatherNext_cases g.parsed with hgn | hgn | hgn
            · obtain ⟨r, cs, hshape⟩ :=
                process_refund_shape refundGw (gather_info (.ok g) s).state
              have hnext : (gather_info (.ok g) s).next = NextStep.process_refund := hgn
              exact ⟨withReply (gather_info (.ok g) s).state r,
                by simp only [runTurn, route_request, hnext, hshape,
                  compile_followup_withReply],
                by simp [withReply], ends_withReply _ _⟩
            · obtain ⟨r, cs, hshape⟩ :=
                process_lookup_shape lookupGw (gather_info (.ok g) s).state
              have hnext : (gather_info (.ok g) s).next = NextStep.process_lookup := hgn
              exact ⟨withReply (gather_info (.ok g) s).state r,
                by simp only [runTurn, route_request, hnext, hshape,
                  compile_followup_withReply],
                by simp [withReply], ends_withReply _ _⟩
            · have hnext : (gather_info (.ok g) s).next = NextStep.default_response := hgn
              exact ⟨withReply (gather_info (.ok g) s).state
                  (defaultResponseText (gather_info (.ok g) s).state),
                by simp only [runTurn, route_request, hnext, default_response,
                  compile_followup_withReply],
                by simp [withReply], ends_withReply _ _⟩
  · intro u
    unfold mainCompileFollowup
    split
    · next h =>
        cases hu : u.followup with
        | none => rw [hu] at h; simp [truthyStr] at h
        | some v => simp [hu]
    · split <;> simp

/-- C8: on any classifier failure — an exception (timeouts included) or
malformed output — the turn routes to the default/fallback terminal and
completes normally: the reply is the fallback node's fixed text for the
turn's message, drawn from the constant three-element text set, the
history ends with that assistant reply, and no error escapes (the turn
yields a state, never a raised exception). The main.py classifier's own
handler likewise ends the turn with its fixed fallback text. -/
theorem classifier_failure_fallback (f : ClassifierFailure) (o : TurnOracle) (s : State)
    (msgs : List Msg) :
    (∃ t, (runTurn { o with route := f.outcome } s).1 = some t ∧
      t.followup = some (defaultResponseText s) ∧
      defaultResponseText s ∈ defaultTexts ∧
      endsWithAssistant t.messages = true) ∧
    (intent_classifier (.error ()) msgs).followup = some classifierFallbackText ∧
    (intent_classifier (.error ()) msgs).goto = .endStep ∧
    (intent_classifier (.error ()) msgs).messages.getLast? =
      some ⟨.assistant, classifierFallbackText⟩ := by
  refine ⟨?_, rfl, rfl, by simp [intent_classifier]⟩
  cases f <;>
    exact ⟨withReply s (defaultResponseText s),
      by simp [runTurn, route_request, ClassifierFailure.outcome, default_response,
        compile_followup_withReply],
      rfl, defaultResponseText_mem _, ends_withReply _ _⟩

/-- C6: when a required input is missing the turn ends normally with a
reply that asks for and names the missing information, and the node issues
no gateway call: `process_refund` with both refund targets null replies
with the fixed request for invoice details and calls nothing, and
`process_lookup` with any identity field null replies with the template
naming exactly the currently-missing fields (each null field is in that
list) and calls nothing. -/
theorem missing_input_no_gateway_call (s : State) (gr : Except String Cents)
    (gl : Except String (List PurchaseItem)) :
    (s.invoice_id = none → s.invoice_line_ids = none →
      (process_refund gr s).2 = [] ∧
      (process_refund gr s).1.next = .endStep ∧
      (process_refund gr s).1.state.followup = some refundMissingText ∧
      containsSub refundMissingText "invoice ID" = true ∧
      containsSub refundMissingText "line items" = true) ∧
    ((s.customer_first_name = none ∨ s.customer_last_name = none ∨ s.customer_phone = none) →
      (process_lookup gl s).2 = [] ∧
      (process_lookup gl s).1.next = .endStep ∧
      (process_lookup gl s).1.state.followup = some (lookupMissingText (missingFields s)) ∧
      (s.customer_first_name = none → "customer_first_name" ∈ missingFields s) ∧
      (s.customer_last_name = none → "customer_last_name" ∈ missingFields s) ∧
      (s.customer_phone = none → "customer_phone" ∈ missingFields s)) := by
  constructor
  · intro h1 h2
    have hc : (truthyInt s.invoice_id || truthyIntList s.invoice_line_ids) = false := by
      rw [h1, h2]; rfl
    refine ⟨?_, ?_, ?_, by decide, by decide⟩ <;>
      simp [process_refund, hc, withReply]
  · intro h
    have hmem : ∃ f, f ∈ missingFields s := by
      rcases h with h | h | h
      · exact ⟨"customer_first_name",
          by simp [missingFields, requiredFields, stateGet, h, truthyStr]⟩
      · exact ⟨"customer_last_name",
          by simp [missingFields, requiredFields, stateGet, h, truthyStr]⟩
      · exact ⟨"customer_phone",
          by simp [missingFields, requiredFields, stateGet, h, truthyStr]⟩
    have hne : missingFields s ≠ [] := by
      obtain ⟨f, hf⟩ := hmem
      exact List.ne_nil_of_mem hf
    have hie : (missingFields s).isEmpty = false := by
      cases hmf : missingFields s with
      | nil => exact absurd hmf hne
      | cons a l => rfl
    refine ⟨?_, ?_, ?_, ?_, ?_, ?_⟩
    · simp [process_lookup, hie]
    · simp [process_lookup, hie]
    · simp [process_lookup, hie, withReply]
    · intro hf
      simp [missingFields, requiredFields, stateGet, hf, truthyStr]
    · intro hf
      simp [missingFields, requiredFields, stateGet, hf, truthyStr]
    · intro hf
      simp [missingFields, requiredFields, stateGet, hf, truthyStr]

/-- C7 (amended): a catalog-query turn never selects one lookup kind by a
text heuristic — it attempts the track lookup and then the album lookup on
every query, passing the raw message text as the artist-name argument of
both, and it never attempts the artist lookup; the calls are exactly
characterized by how far the branch runs before an exception. -/
theorem music_query_calls_characterization (s : State)
    (trackGw : Except Unit (List ToolTrackRow)) (albumGw : Except Unit (List ToolAlbumRow)) :
    (∀ q, GCall.lookup_artist q ∉ (process_music_query trackGw albumGw s).2) ∧
    (process_music_query trackGw albumGw s).2 =
      (match s.messages.getLast?, trackGw, albumGw with
       | none, _, _ => []
       | some m, .error _, _ => [GCall.lookup_track m.content]
       | some m, .ok _, .error _ =>
         [GCall.lookup_track m.content, GCall.lookup_album m.content]
       | some m, .ok _, .ok _ =>
         [GCall.lookup_track m.content, GCall.lookup_album m.content]) := by
  constructor
  · intro q
    cases hm : s.messages.getLast? <;> cases trackGw <;> cases albumGw <;>
      simp [process_music_query, hm]
  · cases hm : s.messages.getLast? <;> cases trackGw <;> cases albumGw <;>
      simp [process_music_query, hm]

/-- C7 counterexample: a query whose text contains "album" does not route
to the album lookup only — the turn issues the track lookup and the album
lookup, both keyed on the raw text. -/
theorem music_query_album_union_cex :
    (process_music_query (.ok []) (.ok [])
        { messages := [⟨.user, "What albums do you have?"⟩] }).2 =
      [GCall.lookup_track "What albums do you have?",
        GCall.lookup_album "What albums do you have?"] ∧
    GCall.lookup_track "What albums do you have?" ∈
      (process_music_query (.ok []) (.ok [])
        { messages := [⟨.user, "What albums do you have?"⟩] }).2 := by
  exact ⟨by decide, by decide⟩

/-- C4 (amended): the tools.py refund is transactional all-or-nothing —
whenever any of its statements (the commit included) raises, the committed
store is the original, and a fault-free run commits every deletion of the
refund target; the db_operations.py refund carries no such guarantee (see
the counterexample). -/
theorem refund_transaction_atomicity (db : ChinookDb) (inv : Option Int)
    (lineIds : Option (List Int)) (mock : Bool) (faults : Nat → Bool) :
    ((_refund db inv lineIds mock faults).2 = .error () →
      (_refund db inv lineIds mock faults).1 = db) ∧
    (lineIds ≠ some [] →
      (_refund db inv lineIds false (fun _ => false)).1 = refundedStore db inv lineIds ∧
      (_refund db inv lineIds false (fun _ => false)).2 ≠ .error ()) := by
  constructor
  · intro h
    unfold _refund at h ⊢
    by_cases hA : inv = none ∧ lineIds = none
    · simp [hA] at h
    · simp only [if_neg hA] at h ⊢
      by_cases hB : lineIds = some []
      · simp [hB]
      · simp only [if_neg hB] at h ⊢
        cases hrun : runStmts faults (refundStmts inv lineIds mock) 0 db 0 with
        | ok pr =>
          obtain ⟨pending, total⟩ := pr
          by_cases hc : faults (refundStmts inv lineIds mock).length
          · simp [hc]
          · rw [hrun] at h
            simp [hc] at h
        | error e => rfl
  · intro hne
    rcases inv with _ | invId <;> rcases lineIds with _ | ids
    · constructor <;> simp [_refund, refundedStore]
    · have hne2 : ids ≠ [] := fun hc => hne (by rw [hc])
      constructor <;>
        simp [_refund, hne2, refundStmts, runStmts, Stmt.effect, Stmt.value, refundedStore]
    · constructor <;>
        simp [_refund, refundStmts, runStmts, Stmt.effect, Stmt.value, refundedStore]
    · have hne2 : ids ≠ [] := fun hc => hne (by rw [hc])
      constructor <;>
        simp [_refund, hne2, refundStmts, runStmts, Stmt.effect, Stmt.value, refundedStore]

/-- C4 counterexample: in the db_operations.py refund, a storage error at
the invoice delete (statement 2) aborts the operation after the line
delete already ran, and the store the shared pooled connection observes
has lost invoice 1's lines while the operation reported failure — a failed
delete does not leave the store unchanged. -/
theorem dbops_refund_partial_delete_cex :
    DbOperations.refund refundDb1 (some 1) none false (fun i => i == 2) =
      ({ invoices := [⟨1, 1, 0, 999⟩], invoiceLines := [] }, .error ()) ∧
    ({ invoices := [⟨1, 1, 0, 999⟩], invoiceLines := [] } : ChinookDb) ≠ refundDb1 := by
  exact ⟨rfl, by decide⟩

/-- C5 (amended): when both an invoice id and a non-empty set of line ids
are given, both deletions are applied, but the reported amount sums the
invoice total only with the named lines that survive the invoice-level
deletion — the line-sum SELECT runs on the same transaction after the
invoice's lines were deleted, so named lines of that same invoice
contribute nothing; only in mock mode (no deletions) is the claimed
invoice-total-plus-all-named-lines sum reported. -/
theorem refund_amount_formula (db : ChinookDb) (invId : Int) (ids : List Int)
    (hne : ids ≠ []) :
    _refund db (some invId) (some ids) false (fun _ => false) =
      (refundedStore db (some invId) (some ids),
       .ok (invoiceTotal db invId +
         sumLines ((db.invoiceLines.filter fun l => l.invoiceId != invId).filter
           fun l => ids.contains l.invoiceLineId))) ∧
    _refund db (some invId) (some ids) true (fun _ => false) =
      (db,
       .ok (invoiceTotal db invId +
         sumLines (db.invoiceLines.filter fun l => ids.contains l.invoiceLineId))) := by
  have hne2 : some ids ≠ some ([] : List Int) := by
    intro hc
    exact hne (Option.some.injEq _ _ ▸ hc)
  constructor <;>
    simp [_refund, hne, refundStmts, runStmts, Stmt.effect, Stmt.value, refundedStore,
      invoiceTotal, sumLines]

/-- Witness: on a store where named line 10 belongs to the deleted invoice
1 and named line 20 belongs to invoice 2, the formula reports invoice 1's
total plus only line 20's amount. -/
theorem refund_amount_formula_witness :
    _refund refundDb2 (some 1) (some [10, 20]) false (fun _ => false) =
      (refundedStore refundDb2 (some 1) (some [10, 20]),
       .ok (invoiceTotal refundDb2 1 +
         sumLines ((refundDb2.invoiceLines.filter fun l => l.invoiceId != 1).filter
           fun l => [10, 20].contains l.invoiceLineId))) ∧
    _refund refundDb2 (some 1) (some [10, 20]) true (fun _ => false) =
      (refundDb2,
       .ok (invoiceTotal refundDb2 1 +
         sumLines (refundDb2.invoiceLines.filter fun l => [10, 20].contains l.invoiceLineId))) :=
  refund_amount_formula refundDb2 1 [10, 20] (by decide)

/-- C5 counterexample: with invoice 1 (total 9.99) and its own line 10
(9.99) both named, the non-mock refund reports 9.99, not the claimed
9.99 + 9.99 = 19.98 sum of both contributions. -/
theorem refund_double_count_cex :
    _refund refundDb1 (some 1) (some [10]) false (fun _ => false) =
      ({ invoices := [], invoiceLines := [] }, .ok 999) ∧
    (999 : Cents) ≠ 999 + 999 := by
  exact ⟨rfl, by decide⟩

/-- C9 (amended): no minutes:seconds conversion exists — every row the
db_operations track lookup returns carries some track's raw
`Track.Milliseconds` value as its duration, and the track rows the catalog
reply tabulates have no duration column at all. -/
theorem duration_raw_milliseconds (db : ChinookDb) (q : String) (r : DbTrackRow)
    (hr : r ∈ DbOperations.lookup_track q db) :
    (∃ t, t ∈ db.tracks ∧ r.track_name = t.name ∧ r.duration = t.milliseconds) ∧
    ("duration" ∈ toolTrackRowKeys) = false := by
  refine ⟨?_, by decide⟩
  unfold DbOperations.lookup_track at hr
  rw [List.mem_dedup] at hr
  simp only [List.mem_map, List.mem_filter, List.mem_flatMap] at hr
  obtain ⟨x, ⟨⟨t, ht, al, hal, ar, har, hx⟩, hlike⟩, hfx⟩ := hr
  refine ⟨t, ht, ?_, ?_⟩
  · rw [← hfx, ← hx]
  · rw [← hfx, ← hx]

/-- Witness: on the one-track catalog, the row returned for the query
"some" is the track's name with its raw 125000-millisecond duration. -/
theorem duration_raw_milliseconds_witness :
    (∃ t, t ∈ catalogDb.tracks ∧
      (DbTrackRow.mk "Some Song" "Some Artist" "Some Album" 125000).track_name = t.name ∧
      (DbTrackRow.mk "Some Song" "Some Artist" "Some Album" 125000).duration = t.milliseconds) ∧
    ("duration" ∈ toolTrackRowKeys) = false :=
  duration_raw_milliseconds catalogDb "some"
    ⟨"Some Song", "Some Artist", "Some Album", 125000⟩ (by decide)

/-- C9 counterexample: the spec's formula would render the 125000 ms track
as "2:05", but the db_operations lookup returns the duration as the raw
number 125000, and the catalog reply's track rows carry no duration cell
at all — nothing renders "2:05". -/
theorem duration_format_cex :
    specMinSec 125000 = "2:05" ∧
    (DbOperations.lookup_track "some" catalogDb).map DbTrackRow.duration = [125000] ∧
    ("duration" ∈ toolTrackRowKeys) = false ∧
    "2:05" ∉ (ToolTrackRow.mk "Some Song" "Some Artist" "Some Album").cells := by
  exact ⟨by decide, by decide, by decide, by decide⟩

/-- C10: whatever combination of filters is supplied, the purchase lookup
returns its records ordered by invoice date descending — every record is
dated no later than each record before it, so the most recent purchase is
first. -/
theorem lookup_sorted_date_desc (f : LookupFilters) (db : ChinookDb) :
    (DbOperations.lookup f db).Pairwise fun a b => b.purchase_date ≤ a.purchase_date := by
  unfold DbOperations.lookup
  have h :=
    @List.sorted_mergeSort LookupRow
      (fun a b : LookupRow => decide (b.purchase_date ≤ a.purchase_date))
      (fun a b c hab hbc => by
        simp only [decide_eq_true_eq] at hab hbc ⊢
        exact le_trans hbc hab)
      (fun a b => by
        simp only [Bool.or_eq_true, decide_eq_true_eq]
        exact le_total b.purchase_date a.purchase_date)
      ((((joinPurchases db).filter (matchesFilters f)).map projectPurchase).dedup)
  exact h.imp fun hab => by simpa using hab
